import Mathlib

/-!
Verification of the OAuth token lifecycle and location-scoped token exchange
layer of the open-ghl-mcp repository (`src/src/utils/auth_middleware.py` and
the client-construction helper in `src/http_server.py`).

Modelling choices (shallow embedding):
* Python dicts are association lists with string keys; `d[k] = v` is `dictSet`
  (replace the first occurrence in place, else append — matching Python's
  insertion-order semantics on dicts with unique keys), `d.get(k)` is `dictGet`.
* JSON values occurring in the token caches are `JVal`: opaque strings (`str`)
  or timestamps (`time`, seconds since epoch as `Nat`).  A stored ISO-format
  timestamp string together with `datetime.fromisoformat` round-trips to the
  timestamp it encodes, so the pair serialize/parse is modelled by the `time`
  constructor; a `str` value in an `expires_at` slot models a string that is
  not a valid ISO timestamp, on which `fromisoformat` raises.
* `datetime.now(UTC)` is a `now : Nat` parameter (seconds); `timedelta(minutes=m)`
  is `m * 60`.
* Each network endpoint is an oracle parameter `HttpOutcome` saying what the
  endpoint would do if called on this occasion; every function additionally
  returns the list of network calls it actually performed (`NetCall`), so
  "no network call happens" is `trace = []`.
* Python exceptions are the `Exc` type inside `Outcome`; `HTTPException` keeps
  its status code and detail string.
* JWT claim payloads are string-valued records; `jwt.decode` (an external
  library call, deterministic in the token) is an oracle
  `jwtDecode : String → Option Claims`, `none` modelling a decode exception.
-/

/-- A JSON / cache value: an opaque string, or a timestamp (seconds). -/
inductive JVal where
  | str (s : String)
  | time (t : Nat)
deriving DecidableEq, Repr

/-- A Python dict with string keys, as an association list. -/
abbrev Dict (α : Type) := List (String × α)

/-- A JSON object as stored in the token caches. -/
abbrev Obj := Dict JVal

/-- `d.get(k)`: first value stored under `k`, if any. -/
def dictGet {α : Type} (d : Dict α) (k : String) : Option α :=
  match d with
  | [] => none
  | (k₁, v) :: rest => if k₁ = k then some v else dictGet rest k

/-- `d[k] = v`: replace the first entry with key `k` in place, else append. -/
def dictSet {α : Type} (d : Dict α) (k : String) (v : α) : Dict α :=
  match d with
  | [] => [(k, v)]
  | (k₁, w) :: rest => if k₁ = k then (k, v) :: rest else (k₁, w) :: dictSet rest k v

/-- The two `TokenManager` caches (`_token_cache`, `_location_token_cache`). -/
structure TMState where
  tokenCache : Dict Obj
  locationTokenCache : Dict Obj
deriving DecidableEq, Repr

/-- The empty caches of a freshly constructed `TokenManager`. -/
def TMState.init : TMState := ⟨[], []⟩

/-- A network call performed by the token manager: either to the identity
validation endpoint (`oauth-test`) or to the token exchange endpoint
(`get-token`). -/
inductive NetCall where
  | oauthTest (token : String)
  | getToken (bearerToken : String) (locationId : String)
deriving DecidableEq, Repr

/-- What an endpoint does when called: an HTTP response with status, parsed
JSON body and raw text; a network-level `httpx.RequestError`; or some other
exception raised while performing the request. -/
inductive HttpOutcome where
  | resp (status : Nat) (body : Obj) (text : String)
  | requestError
  | otherExc
deriving DecidableEq, Repr

/-- A Python exception: `HTTPException(status_code, detail)` or any other
exception (carrying a description). -/
inductive Exc where
  | httpException (status : Nat) (detail : String)
  | pyError (msg : String)
deriving DecidableEq, Repr

/-- Result of running a Python coroutine: normal return or raised exception. -/
inductive Outcome (α : Type) where
  | ret (v : α)
  | exn (e : Exc)
deriving DecidableEq, Repr

/-- The network part of `TokenManager.validate_bearer_token` (the `try` block:
POST to the `oauth-test` endpoint; on 200 stamp `expires_at = now + 5 minutes`
into the body, cache and return it; on non-200 raise `HTTPException(401, ...)`;
on `httpx.RequestError` raise `HTTPException(503, ...)`; any other exception
propagates). -/
def validateNetwork (st : TMState) (token : String) (now : Nat)
    (net : HttpOutcome) : Outcome Obj × TMState × List NetCall :=
  match net with
  | .resp status body text =>
    if status = 200 then
      let data := dictSet body "expires_at" (.time (now + 5 * 60))
      (.ret data, { st with tokenCache := dictSet st.tokenCache token data },
        [.oauthTest token])
    else
      (.exn (.httpException 401 ("Token validation failed: " ++ text)), st,
        [.oauthTest token])
  | .requestError =>
    (.exn (.httpException 503 "Authentication service unavailable"), st,
      [.oauthTest token])
  | .otherExc =>
    (.exn (.pyError "request failed"), st, [.oauthTest token])

/-- `TokenManager.validate_bearer_token`: return the cached validation result
when an unexpired entry exists, otherwise validate over the network. -/
def validate_bearer_token (st : TMState) (token : String) (now : Nat)
    (net : HttpOutcome) : Outcome Obj × TMState × List NetCall :=
  match dictGet st.tokenCache token with
  | some cached =>
    match dictGet cached "expires_at" with
    | some (.time t) =>
      if now < t then (.ret cached, st, [])
      else validateNetwork st token now net
    | some (.str s) =>
      if s = "" then validateNetwork st token now net
      else (.exn (.pyError "invalid isoformat string"), st, [])
    | none => validateNetwork st token now net
  | none => validateNetwork st token now net

/-- True when the token cache holds no unexpired entry for `token` (the empty
string plays the role of a falsy `expires_at` value). -/
def noValidTokenEntry (st : TMState) (token : String) (now : Nat) : Bool :=
  match dictGet st.tokenCache token with
  | none => true
  | some cached =>
    match dictGet cached "expires_at" with
    | some (.time t) => decide (t ≤ now)
    | some (.str s) => decide (s = "")
    | none => true

/-- The sentinel location returned when no `locationId` claim is available. -/
def testLocationId : String := "test_location_id"

/-- JWT claims, modelled as a string-valued record. -/
abbrev Claims := Dict String

/-- `TokenManager.get_location_from_token`: validate the token (exceptions
propagate), then decode its claims without signature verification; return the
`locationId` claim when present and truthy, else the sentinel; any decode
exception also yields the sentinel. -/
def get_location_from_token (st : TMState) (token : String) (now : Nat)
    (net : HttpOutcome) (jwtDecode : String → Option Claims) :
    Outcome String × TMState × List NetCall :=
  match validate_bearer_token st token now net with
  | (.exn e, st₁, calls) => (.exn e, st₁, calls)
  | (.ret _tokenData, st₁, calls) =>
    match jwtDecode token with
    | none => (.ret testLocationId, st₁, calls)
    | some claims =>
      let _companyId := dictGet claims "companyId"
      match dictGet claims "locationId" with
      | some l => if l = "" then (.ret testLocationId, st₁, calls) else (.ret l, st₁, calls)
      | none => (.ret testLocationId, st₁, calls)

/-- The composite cache key `f"\x7bbearer_token\x7d:\x7blocation_id\x7d"` used by
`TokenManager.get_location_token`. -/
def cacheKey (bearerToken locationId : String) : String :=
  bearerToken ++ ":" ++ locationId

/-- The network part of `TokenManager.get_location_token` (the `try` block:
POST to the `get-token` endpoint; on 200 extract `access_token` — falling back
to the bearer token when absent — cache it for 30 minutes and return it; on
non-200 or any exception return the bearer token without caching). -/
def exchangeNetwork (st : TMState) (bearerToken locationId : String) (now : Nat)
    (net : HttpOutcome) : Outcome JVal × TMState × List NetCall :=
  match net with
  | .resp status body _text =>
    if status = 200 then
      let locationToken := (dictGet body "access_token").getD (.str bearerToken)
      let entry : Obj := [("token", locationToken), ("expires_at", .time (now + 30 * 60))]
      (.ret locationToken,
        { st with locationTokenCache :=
            dictSet st.locationTokenCache (cacheKey bearerToken locationId) entry },
        [.getToken bearerToken locationId])
    else
      (.ret (.str bearerToken), st, [.getToken bearerToken locationId])
  | .requestError =>
    (.ret (.str bearerToken), st, [.getToken bearerToken locationId])
  | .otherExc =>
    (.ret (.str bearerToken), st, [.getToken bearerToken locationId])

/-- `TokenManager.get_location_token`: return the cached scoped token when an
unexpired entry exists under the composite key, otherwise exchange over the
network. -/
def get_location_token (st : TMState) (bearerToken locationId : String)
    (now : Nat) (net : HttpOutcome) : Outcome JVal × TMState × List NetCall :=
  match dictGet st.locationTokenCache (cacheKey bearerToken locationId) with
  | some cached =>
    match dictGet cached "expires_at" with
    | some (.time t) =>
      if now < t then
        match dictGet cached "token" with
        | some tok => (.ret tok, st, [])
        | none => (.exn (.pyError "KeyError: token"), st, [])
      else exchangeNetwork st bearerToken locationId now net
    | some (.str s) =>
      if s = "" then exchangeNetwork st bearerToken locationId now net
      else (.exn (.pyError "invalid isoformat string"), st, [])
    | none => exchangeNetwork st bearerToken locationId now net
  | none => exchangeNetwork st bearerToken locationId now net

/-- True when the location-token cache holds no unexpired entry for the
composite key `ck`. -/
def noValidLocEntry (st : TMState) (ck : String) (now : Nat) : Bool :=
  match dictGet st.locationTokenCache ck with
  | none => true
  | some cached =>
    match dictGet cached "expires_at" with
    | some (.time t) => decide (t ≤ now)
    | some (.str s) => decide (s = "")
    | none => true

/-- True when the endpoint outcome is anything other than a 200 response:
a non-200 status, a network-level request error, or another exception. -/
def netFails (net : HttpOutcome) : Bool :=
  match net with
  | .resp status _ _ => decide (status ≠ 200)
  | .requestError => true
  | .otherExc => true

/-- `HTTPAuthMiddleware.__call__`: require credentials (else 401), validate the
bearer token, then resolve the location; `HTTPException`s propagate as they
are, any other exception becomes `HTTPException(401, "Authentication failed")`. -/
def httpAuthMiddleware (st : TMState) (credentials : Option String) (now : Nat)
    (net : HttpOutcome) (jwtDecode : String → Option Claims) :
    Outcome String × TMState × List NetCall :=
  match credentials with
  | none => (.exn (.httpException 401 "Missing authorization header"), st, [])
  | some token =>
    match validate_bearer_token st token now net with
    | (.exn (.httpException s d), st₁, calls) =>
      (.exn (.httpException s d), st₁, calls)
    | (.exn (.pyError _), st₁, calls) =>
      (.exn (.httpException 401 "Authentication failed"), st₁, calls)
    | (.ret _, st₁, calls) =>
      match get_location_from_token st₁ token now net jwtDecode with
      | (.ret loc, st₂, calls₂) => (.ret loc, st₂, calls ++ calls₂)
      | (.exn (.httpException s d), st₂, calls₂) =>
        (.exn (.httpException s d), st₂, calls ++ calls₂)
      | (.exn (.pyError _), st₂, calls₂) =>
        (.exn (.httpException 401 "Authentication failed"), st₂, calls ++ calls₂)

/-- The request object: the bearer token of the `Authorization` header (if
any) and the two request-scoped state slots the auth dependency fills in. -/
structure PyRequest where
  authHeader : Option String
  stateBearerToken : Option String
  stateLocationId : Option String
deriving DecidableEq, Repr

/-- `MCPAuthDependency.__call__`: obtain credentials (from the argument or via
the `HTTPBearer` security scheme, which raises 403 when the header is absent),
run the auth middleware to validate and resolve, store token and location on
the request state, and return `(location_id, token)`. -/
def mcpAuth (st : TMState) (req : PyRequest) (credentials : Option String)
    (now : Nat) (net : HttpOutcome) (jwtDecode : String → Option Claims) :
    Outcome (String × String) × TMState × PyRequest × List NetCall :=
  match credentials.orElse (fun _ => req.authHeader) with
  | none => (.exn (.httpException 403 "Not authenticated"), st, req, [])
  | some token =>
    match httpAuthMiddleware st (some token) now net jwtDecode with
    | (.ret loc, st₁, calls) =>
      (.ret (loc, token), st₁,
        { req with stateBearerToken := some token, stateLocationId := some loc }, calls)
    | (.exn e, st₁, calls) => (.exn e, st₁, req, calls)

/-- `RemoteOAuthService.get_location_token` inside `get_ghl_client`
(`src/http_server.py`): the CRM client's OAuth wrapper delegates scoped-token
acquisition to the token manager's exchange. -/
def remoteOAuthGetLocationToken (st : TMState) (token locId : String)
    (now : Nat) (net : HttpOutcome) : Outcome JVal × TMState × List NetCall :=
  get_location_token st token locId now net

/-! ### Helper lemmas about the dict model and the cache-miss paths -/

theorem dictGet_dictSet_self {α : Type} (d : Dict α) (k : String) (v : α) :
    dictGet (dictSet d k v) k = some v := by
  induction d with
  | nil => simp [dictSet, dictGet]
  | cons p rest ih =>
    obtain ⟨k₁, w⟩ := p
    by_cases hk : k₁ = k
    · simp [dictSet, hk, dictGet]
    · simp [dictSet, hk, dictGet, ih]

theorem validateNetwork_locCache (st : TMState) (token : String) (now : Nat)
    (net : HttpOutcome) :
    (validateNetwork st token now net).2.1.locationTokenCache = st.locationTokenCache := by
  cases net with
  | resp s b t => by_cases h : s = 200 <;> simp [validateNetwork, h]
  | requestError => rfl
  | otherExc => rfl

theorem validateNetwork_calls (st : TMState) (token : String) (now : Nat)
    (net : HttpOutcome) :
    (validateNetwork st token now net).2.2 = [NetCall.oauthTest token] := by
  cases net with
  | resp s b t => by_cases h : s = 200 <;> simp [validateNetwork, h]
  | requestError => rfl
  | otherExc => rfl

theorem validate_noValid (st : TMState) (token : String) (now : Nat)
    (net : HttpOutcome) (h : noValidTokenEntry st token now = true) :
    validate_bearer_token st token now net = validateNetwork st token now net := by
  unfold validate_bearer_token
  cases hg : dictGet st.tokenCache token with
  | none => simp
  | some cached =>
    cases he : dictGet cached "expires_at" with
    | none => simp [he]
    | some v =>
      cases v with
      | str s =>
        simp only [noValidTokenEntry, hg, he, decide_eq_true_eq] at h
        simp [he, h]
      | time t =>
        simp only [noValidTokenEntry, hg, he, decide_eq_true_eq] at h
        simp [he, Nat.not_lt.mpr h]

theorem validate_locCache (st : TMState) (token : String) (now : Nat)
    (net : HttpOutcome) :
    (validate_bearer_token st token now net).2.1.locationTokenCache =
      st.locationTokenCache := by
  unfold validate_bearer_token
  cases hg : dictGet st.tokenCache token with
  | none => simp [validateNetwork_locCache]
  | some cached =>
    cases he : dictGet cached "expires_at" with
    | none => simp [he, validateNetwork_locCache]
    | some v =>
      cases v with
      | str s => by_cases hs : s = "" <;> simp [he, hs, validateNetwork_locCache]
      | time t => by_cases ht : now < t <;> simp [he, ht, validateNetwork_locCache]

theorem validate_calls (st : TMState) (token : String) (now : Nat)
    (net : HttpOutcome) :
    (validate_bearer_token st token now net).2.2 = [] ∨
      (validate_bearer_token st token now net).2.2 = [NetCall.oauthTest token] := by
  unfold validate_bearer_token
  cases hg : dictGet st.tokenCache token with
  | none => simp [validateNetwork_calls]
  | some cached =>
    cases he : dictGet cached "expires_at" with
    | none => simp [he, validateNetwork_calls]
    | some v =>
      cases v with
      | str s => by_cases hs : s = "" <;> simp [he, hs, validateNetwork_calls]
      | time t => by_cases ht : now < t <;> simp [he, ht, validateNetwork_calls]

/-! ### C1, C5, C6, C10 — the token validator -/

/-- C1: a token validated successfully over the network at time `now` is
cached; any second call within 5 minutes performs no network call and returns
the identical validation payload, whose `expires_at` is strictly in the
future. -/
theorem validate_second_call_cache_hit (st : TMState) (token : String)
    (now : Nat) (body : Obj) (text : String)
    (h : noValidTokenEntry st token now = true) :
    ∃ data st₁,
      validate_bearer_token st token now (.resp 200 body text) =
        (.ret data, st₁, [.oauthTest token]) ∧
      dictGet data "expires_at" = some (.time (now + 5 * 60)) ∧
      ∀ now₂ net₂, now₂ < now + 5 * 60 →
        validate_bearer_token st₁ token now₂ net₂ = (.ret data, st₁, []) := by
  refine ⟨dictSet body "expires_at" (.time (now + 5 * 60)),
    { st with tokenCache :=
        dictSet st.tokenCache token (dictSet body "expires_at" (.time (now + 5 * 60))) },
    ?_, dictGet_dictSet_self _ _ _, ?_⟩
  · rw [validate_noValid _ _ _ _ h]
    simp [validateNetwork]
  · intro now₂ net₂ hlt
    unfold validate_bearer_token
    simp [dictGet_dictSet_self, hlt]

theorem validate_second_call_cache_hit_witness :
    noValidTokenEntry TMState.init "abc" 0 = true ∧
    ∃ data st₁,
      validate_bearer_token TMState.init "abc" 0 (.resp 200 [] "ok") =
        (.ret data, st₁, [.oauthTest "abc"]) ∧
      dictGet data "expires_at" = some (.time (0 + 5 * 60)) ∧
      ∀ now₂ net₂, now₂ < 0 + 5 * 60 →
        validate_bearer_token st₁ "abc" now₂ net₂ = (.ret data, st₁, []) :=
  ⟨rfl, validate_second_call_cache_hit TMState.init "abc" 0 [] "ok" rfl⟩

/-- C5: when the identity endpoint fails at the network level
(`httpx.RequestError`) and no unexpired cache entry exists, validation raises
`HTTPException(503, ...)` — the service-unavailable error, not the 401
authentication error — and the auth middleware propagates it unchanged. -/
theorem validate_requestError_503 (st : TMState) (token : String) (now : Nat)
    (jwtDecode : String → Option Claims)
    (h : noValidTokenEntry st token now = true) :
    validate_bearer_token st token now .requestError =
      (.exn (.httpException 503 "Authentication service unavailable"), st,
        [.oauthTest token]) ∧
    httpAuthMiddleware st (some token) now .requestError jwtDecode =
      (.exn (.httpException 503 "Authentication service unavailable"), st,
        [.oauthTest token]) := by
  have hv : validate_bearer_token st token now .requestError =
      (.exn (.httpException 503 "Authentication service unavailable"), st,
        [.oauthTest token]) := by
    rw [validate_noValid _ _ _ _ h]; rfl
  refine ⟨hv, ?_⟩
  simp [httpAuthMiddleware, hv]

theorem validate_requestError_503_witness :
    noValidTokenEntry TMState.init "abc" 0 = true ∧
    validate_bearer_token TMState.init "abc" 0 .requestError =
      (.exn (.httpException 503 "Authentication service unavailable"),
        TMState.init, [.oauthTest "abc"]) ∧
    httpAuthMiddleware TMState.init (some "abc") 0 .requestError (fun _ => none) =
      (.exn (.httpException 503 "Authentication service unavailable"),
        TMState.init, [.oauthTest "abc"]) :=
  ⟨rfl,
    (validate_requestError_503 TMState.init "abc" 0 (fun _ => none) rfl).1,
    (validate_requestError_503 TMState.init "abc" 0 (fun _ => none) rfl).2⟩

/-- C6 counterexample: on a 500 response the raised exception has the fixed
status 401 and a detail built only from the response body text — it does not
carry the response status 500 anywhere. -/
theorem validate_non200_status_not_carried :
    (validate_bearer_token TMState.init "abc" 0 (.resp 500 [] "oops")).1 =
      .exn (.httpException 401 "Token validation failed: oops") ∧
    ∀ d, (validate_bearer_token TMState.init "abc" 0 (.resp 500 [] "oops")).1 ≠
      .exn (.httpException 500 d) := by
  refine ⟨rfl, ?_⟩
  intro d hcontra
  rw [show (validate_bearer_token TMState.init "abc" 0 (.resp 500 [] "oops")).1 =
      .exn (.httpException 401 "Token validation failed: oops") from rfl] at hcontra
  simp at hcontra

/-- C6 amended: on a non-200 response (and no unexpired cache entry),
validation raises `HTTPException` with the fixed status 401 whose detail
carries the response body text; the response's own status code is not
included. -/
theorem validate_non200_raises_401 (st : TMState) (token : String) (now : Nat)
    (status : Nat) (body : Obj) (text : String)
    (h : noValidTokenEntry st token now = true) (hs : status ≠ 200) :
    validate_bearer_token st token now (.resp status body text) =
      (.exn (.httpException 401 ("Token validation failed: " ++ text)), st,
        [.oauthTest token]) := by
  rw [validate_noValid _ _ _ _ h]
  simp [validateNetwork, hs]

theorem validate_non200_raises_401_witness :
    noValidTokenEntry TMState.init "abc" 0 = true ∧ 500 ≠ 200 ∧
    validate_bearer_token TMState.init "abc" 0 (.resp 500 [] "bad") =
      (.exn (.httpException 401 "Token validation failed: bad"), TMState.init,
        [.oauthTest "abc"]) :=
  ⟨rfl, by decide,
    validate_non200_raises_401 TMState.init "abc" 0 500 [] "bad" rfl (by decide)⟩

/-- C10: on a 200 response (and no unexpired cache entry) the value returned
and cached is not the raw response body but the body with an `expires_at` key
set to `now + 5 minutes` — overwriting any `expires_at` field the endpoint
itself returned — so the payload every caller sees carries this cache-expiry
timestamp. -/
theorem validate_returns_stamped_body (st : TMState) (token : String)
    (now : Nat) (body : Obj) (text : String)
    (h : noValidTokenEntry st token now = true) :
    validate_bearer_token st token now (.resp 200 body text) =
      (.ret (dictSet body "expires_at" (.time (now + 5 * 60))),
        { st with tokenCache :=
            dictSet st.tokenCache token (dictSet body "expires_at" (.time (now + 5 * 60))) },
        [.oauthTest token]) ∧
    dictGet (dictSet body "expires_at" (.time (now + 5 * 60))) "expires_at" =
      some (.time (now + 5 * 60)) := by
  refine ⟨?_, dictGet_dictSet_self _ _ _⟩
  rw [validate_noValid _ _ _ _ h]
  simp [validateNetwork]

theorem validate_returns_stamped_body_witness :
    noValidTokenEntry TMState.init "abc" 7 = true ∧
    validate_bearer_token TMState.init "abc" 7
        (.resp 200 [("expires_at", JVal.str "from-endpoint"), ("userId", JVal.str "u1")] "ok") =
      (.ret [("expires_at", JVal.time (7 + 5 * 60)), ("userId", JVal.str "u1")],
        ⟨[("abc", [("expires_at", JVal.time (7 + 5 * 60)), ("userId", JVal.str "u1")])], []⟩,
        [.oauthTest "abc"]) ∧
    dictGet [("expires_at", JVal.time (7 + 5 * 60)), ("userId", JVal.str "u1")] "expires_at" =
      some (JVal.time (7 + 5 * 60)) :=
  ⟨rfl,
    (validate_returns_stamped_body TMState.init "abc" 7
      [("expires_at", JVal.str "from-endpoint"), ("userId", JVal.str "u1")] "ok" rfl).1,
    (validate_returns_stamped_body TMState.init "abc" 7
      [("expires_at", JVal.str "from-endpoint"), ("userId", JVal.str "u1")] "ok" rfl).2⟩

/-! ### C4, C7 — the location resolver -/

/-- C4 counterexample: `get_location_from_token` validates the token first,
outside its `try` block, so when validation fails (here: the identity endpoint
answers 401 on an uncached token) the resolver raises instead of returning a
string. -/
theorem resolve_raises_on_invalid_token :
    get_location_from_token TMState.init "abc" 0 (.resp 401 [] "bad")
        (fun _ => none) =
      (.exn (.httpException 401 "Token validation failed: bad"), TMState.init,
        [.oauthTest "abc"]) := by
  rfl

/-- C4 amended: for every token whose validation returns normally, the
resolver never raises — it returns some string (the claim value or the
sentinel); when validation raises, that exception propagates out of the
resolver. -/
theorem resolve_total_after_validation (st : TMState) (token : String)
    (now : Nat) (net : HttpOutcome) (jwtDecode : String → Option Claims)
    (data : Obj) (st₁ : TMState) (calls : List NetCall)
    (h : validate_bearer_token st token now net = (.ret data, st₁, calls)) :
    ∃ loc : String,
      (get_location_from_token st token now net jwtDecode).1 = .ret loc := by
  unfold get_location_from_token
  rw [h]
  cases hd : jwtDecode token with
  | none => exact ⟨testLocationId, rfl⟩
  | some claims =>
    cases hc : dictGet claims "locationId" with
    | none => exact ⟨testLocationId, by simp [hc]⟩
    | some l =>
      by_cases hl : l = ""
      · exact ⟨testLocationId, by simp [hc, hl]⟩
      · exact ⟨l, by simp [hc, hl]⟩

theorem resolve_total_after_validation_witness :
    validate_bearer_token ⟨[("abc", [("expires_at", JVal.time 100)])], []⟩
        "abc" 0 .requestError =
      (.ret [("expires_at", JVal.time 100)],
        ⟨[("abc", [("expires_at", JVal.time 100)])], []⟩, []) ∧
    ∃ loc : String,
      (get_location_from_token ⟨[("abc", [("expires_at", JVal.time 100)])], []⟩
          "abc" 0 .requestError (fun _ => none)).1 = .ret loc :=
  ⟨rfl,
    resolve_total_after_validation ⟨[("abc", [("expires_at", JVal.time 100)])], []⟩
      "abc" 0 .requestError (fun _ => none) [("expires_at", JVal.time 100)]
      ⟨[("abc", [("expires_at", JVal.time 100)])], []⟩ [] rfl⟩

/-- C7 counterexample: for a validated token whose claims contain the
`locationId` claim with (falsy) value `""`, the resolver returns the sentinel
`"test_location_id"`, not the claim value — Python's truthiness check rejects
a present-but-empty claim. -/
theorem resolve_empty_locationId_sentinel :
    get_location_from_token ⟨[("abc", [("expires_at", JVal.time 100)])], []⟩
        "abc" 0 .requestError (fun _ => some [("locationId", "")]) =
      (.ret testLocationId,
        ⟨[("abc", [("expires_at", JVal.time 100)])], []⟩, []) ∧
    testLocationId ≠ "" := by
  exact ⟨rfl, by decide⟩

/-- C7 amended: for every token whose validation returns normally — with a
non-empty `locationId` claim the resolver returns the claim value exactly;
with the claim absent or empty it returns the sentinel; and when decoding
raises it also returns the sentinel. -/
theorem resolve_claim_semantics (st : TMState) (token : String) (now : Nat)
    (net : HttpOutcome) (jwtDecode : String → Option Claims)
    (data : Obj) (st₁ : TMState) (calls : List NetCall)
    (h : validate_bearer_token st token now net = (.ret data, st₁, calls)) :
    (∀ claims l, jwtDecode token = some claims →
      dictGet claims "locationId" = some l → l ≠ "" →
      get_location_from_token st token now net jwtDecode = (.ret l, st₁, calls)) ∧
    (∀ claims, jwtDecode token = some claims →
      (dictGet claims "locationId" = none ∨ dictGet claims "locationId" = some "") →
      get_location_from_token st token now net jwtDecode =
        (.ret testLocationId, st₁, calls)) ∧
    (jwtDecode token = none →
      get_location_from_token st token now net jwtDecode =
        (.ret testLocationId, st₁, calls)) := by
  refine ⟨?_, ?_, ?_⟩
  · intro claims l hd hc hl
    unfold get_location_from_token
    rw [h, hd]
    simp [hc, hl]
  · intro claims hd hc
    unfold get_location_from_token
    rw [h, hd]
    rcases hc with hc | hc <;> simp [hc]
  · intro hd
    unfold get_location_from_token
    rw [h, hd]

theorem resolve_claim_semantics_witness :
    validate_bearer_token ⟨[("abc", [("expires_at", JVal.time 100)])], []⟩
        "abc" 0 .requestError =
      (.ret [("expires_at", JVal.time 100)],
        ⟨[("abc", [("expires_at", JVal.time 100)])], []⟩, []) ∧
    (fun _ : String => some [("locationId", "loc_9")]) "abc" =
      some [("locationId", "loc_9")] ∧
    dictGet [("locationId", "loc_9")] "locationId" = some "loc_9" ∧
    "loc_9" ≠ "" ∧
    get_location_from_token ⟨[("abc", [("expires_at", JVal.time 100)])], []⟩
        "abc" 0 .requestError (fun _ => some [("locationId", "loc_9")]) =
      (.ret "loc_9", ⟨[("abc", [("expires_at", JVal.time 100)])], []⟩, []) :=
  ⟨rfl, rfl, rfl, by decide,
    (resolve_claim_semantics ⟨[("abc", [("expires_at", JVal.time 100)])], []⟩
        "abc" 0 .requestError (fun _ => some [("locationId", "loc_9")])
        [("expires_at", JVal.time 100)]
        ⟨[("abc", [("expires_at", JVal.time 100)])], []⟩ [] rfl).1
      [("locationId", "loc_9")] "loc_9" rfl rfl (by decide)⟩

/-! ### Helper lemmas for the exchanger -/

theorem exchangeNetwork_calls (st : TMState) (bearerToken locationId : String)
    (now : Nat) (net : HttpOutcome) :
    (exchangeNetwork st bearerToken locationId now net).2.2 =
      [NetCall.getToken bearerToken locationId] := by
  cases net with
  | resp s b t => by_cases h : s = 200 <;> simp [exchangeNetwork, h]
  | requestError => rfl
  | otherExc => rfl

theorem exchange_noValid (st : TMState) (bearerToken locationId : String)
    (now : Nat) (net : HttpOutcome)
    (h : noValidLocEntry st (cacheKey bearerToken locationId) now = true) :
    get_location_token st bearerToken locationId now net =
      exchangeNetwork st bearerToken locationId now net := by
  unfold get_location_token
  cases hg : dictGet st.locationTokenCache (cacheKey bearerToken locationId) with
  | none => simp
  | some cached =>
    cases he : dictGet cached "expires_at" with
    | none => simp [he]
    | some v =>
      cases v with
      | str s =>
        simp only [noValidLocEntry, hg, he, decide_eq_true_eq] at h
        simp [he, h]
      | time t =>
        simp only [noValidLocEntry, hg, he, decide_eq_true_eq] at h
        simp [he, Nat.not_lt.mpr h]

theorem noValidLocEntry_mono (st : TMState) (ck : String) (now now₂ : Nat)
    (h : noValidLocEntry st ck now = true) (hle : now ≤ now₂) :
    noValidLocEntry st ck now₂ = true := by
  unfold noValidLocEntry at h ⊢
  cases hg : dictGet st.locationTokenCache ck with
  | none => simp
  | some cached =>
    cases he : dictGet cached "expires_at" with
    | none => simp [he]
    | some v =>
      cases v with
      | str s => simp only [hg, he] at h; simp [he, h]
      | time t =>
        simp only [hg, he, decide_eq_true_eq] at h
        simp only [he, decide_eq_true_eq]
        omega

/-! ### C2, C3 — the location token exchanger -/

/-- C2: an exchange answered 200 with an `access_token` field (and no
unexpired cache entry) returns that token, caches it under the composite key
with expiry `now + 30 minutes`, and any subsequent call within those 30
minutes returns the same cached scoped token with no network call. -/
theorem exchange_success_caches (st : TMState) (bearerToken locationId : String)
    (now : Nat) (body : Obj) (text : String) (tok : JVal)
    (h : noValidLocEntry st (cacheKey bearerToken locationId) now = true)
    (ha : dictGet body "access_token" = some tok) :
    ∃ st₁,
      get_location_token st bearerToken locationId now (.resp 200 body text) =
        (.ret tok, st₁, [.getToken bearerToken locationId]) ∧
      st₁.locationTokenCache =
        dictSet st.locationTokenCache (cacheKey bearerToken locationId)
          [("token", tok), ("expires_at", .time (now + 30 * 60))] ∧
      ∀ now₂ net₂, now₂ < now + 30 * 60 →
        get_location_token st₁ bearerToken locationId now₂ net₂ =
          (.ret tok, st₁, []) := by
  refine ⟨⟨st.tokenCache,
      dictSet st.locationTokenCache (cacheKey bearerToken locationId)
        [("token", tok), ("expires_at", .time (now + 30 * 60))]⟩, ?_, rfl, ?_⟩
  · rw [exchange_noValid _ _ _ _ _ h]
    simp [exchangeNetwork, ha]
  · intro now₂ net₂ hlt
    unfold get_location_token
    simp [dictGet_dictSet_self, dictGet, hlt]

theorem exchange_success_caches_witness :
    noValidLocEntry TMState.init (cacheKey "abc" "loc_9") 0 = true ∧
    dictGet [("access_token", JVal.str "scoped_1")] "access_token" =
      some (JVal.str "scoped_1") ∧
    ∃ st₁,
      get_location_token TMState.init "abc" "loc_9" 0
          (.resp 200 [("access_token", JVal.str "scoped_1")] "") =
        (.ret (JVal.str "scoped_1"), st₁, [.getToken "abc" "loc_9"]) ∧
      st₁.locationTokenCache =
        dictSet TMState.init.locationTokenCache (cacheKey "abc" "loc_9")
          [("token", JVal.str "scoped_1"), ("expires_at", .time (0 + 30 * 60))] ∧
      ∀ now₂ net₂, now₂ < 0 + 30 * 60 →
        get_location_token st₁ "abc" "loc_9" now₂ net₂ =
          (.ret (JVal.str "scoped_1"), st₁, []) :=
  ⟨rfl, rfl,
    exchange_success_caches TMState.init "abc" "loc_9" 0
      [("access_token", JVal.str "scoped_1")] "" (JVal.str "scoped_1") rfl rfl⟩

/-- C3: with no unexpired cache entry, when the exchange endpoint answers
non-200 or any exception is raised, the exchange does not raise: it returns
the original bearer token unchanged and writes nothing to the cache, so any
later call attempts the network exchange again. -/
theorem exchange_failure_fallback (st : TMState) (bearerToken locationId : String)
    (now : Nat) (net : HttpOutcome)
    (h : noValidLocEntry st (cacheKey bearerToken locationId) now = true)
    (hf : netFails net = true) :
    get_location_token st bearerToken locationId now net =
      (.ret (.str bearerToken), st, [.getToken bearerToken locationId]) ∧
    ∀ now₂ net₂, now ≤ now₂ →
      (get_location_token st bearerToken locationId now₂ net₂).2.2 =
        [.getToken bearerToken locationId] := by
  constructor
  · rw [exchange_noValid _ _ _ _ _ h]
    cases net with
    | resp s b t =>
      simp only [netFails, decide_eq_true_eq] at hf
      simp [exchangeNetwork, hf]
    | requestError => rfl
    | otherExc => rfl
  · intro now₂ net₂ hle
    rw [exchange_noValid _ _ _ _ _ (noValidLocEntry_mono st _ now now₂ h hle)]
    exact exchangeNetwork_calls st bearerToken locationId now₂ net₂

theorem exchange_failure_fallback_witness :
    noValidLocEntry TMState.init (cacheKey "abc" "loc_9") 0 = true ∧
    netFails (.resp 500 [] "server error") = true ∧
    get_location_token TMState.init "abc" "loc_9" 0 (.resp 500 [] "server error") =
      (.ret (.str "abc"), TMState.init, [.getToken "abc" "loc_9"]) ∧
    ∀ now₂ net₂, 0 ≤ now₂ →
      (get_location_token TMState.init "abc" "loc_9" now₂ net₂).2.2 =
        [.getToken "abc" "loc_9"] :=
  ⟨rfl, rfl,
    (exchange_failure_fallback TMState.init "abc" "loc_9" 0
      (.resp 500 [] "server error") rfl rfl).1,
    (exchange_failure_fallback TMState.init "abc" "loc_9" 0
      (.resp 500 [] "server error") rfl rfl).2⟩

/-! ### C8 — the composite cache key -/

/-- C8 counterexample: the composite key is built by plain string
interpolation, so distinct pairs can collide — and the exchanger then serves
the scoped token cached for one pair to the other pair, without any network
call. -/
theorem cacheKey_collision :
    cacheKey "a:b" "c" = cacheKey "a" "b:c" ∧
    ("a:b", "c") ≠ (("a", "b:c") : String × String) ∧
    ∃ st₁,
      get_location_token TMState.init "a:b" "c" 0
          (.resp 200 [("access_token", JVal.str "s1")] "") =
        (.ret (JVal.str "s1"), st₁, [.getToken "a:b" "c"]) ∧
      get_location_token st₁ "a" "b:c" 0 .otherExc =
        (.ret (JVal.str "s1"), st₁, []) := by
  refine ⟨by decide, by decide,
    ⟨⟨[], [("a:b:c", [("token", JVal.str "s1"), ("expires_at", JVal.time (0 + 30 * 60))])]⟩,
      ?_, ?_⟩⟩
  · rfl
  · rfl

/-- Splitting a list at a separator absent from both prefixes is injective. -/
theorem append_sep_inj : ∀ (a₁ a₂ b₁ b₂ : List Char),
    ':' ∉ a₁ → ':' ∉ a₂ → a₁ ++ ':' :: b₁ = a₂ ++ ':' :: b₂ →
    a₁ = a₂ ∧ b₁ = b₂ := by
  intro a₁
  induction a₁ with
  | nil =>
    intro a₂ b₁ b₂ h₁ h₂ h
    cases a₂ with
    | nil => simpa using h
    | cons c r =>
      rw [List.nil_append, List.cons_append] at h
      injection h with hc _
      exact absurd (by rw [hc]; exact List.mem_cons_self c r) h₂
  | cons c rest ih =>
    intro a₂ b₁ b₂ h₁ h₂ h
    cases a₂ with
    | nil =>
      rw [List.cons_append, List.nil_append] at h
      injection h with hc _
      exact absurd (by rw [← hc]; exact List.mem_cons_self c rest) h₁
    | cons d r =>
      rw [List.cons_append, List.cons_append] at h
      injection h with hc ht
      subst hc
      have h₁' : ':' ∉ rest := fun m => h₁ (List.mem_cons_of_mem _ m)
      have h₂' : ':' ∉ r := fun m => h₂ (List.mem_cons_of_mem _ m)
      obtain ⟨ha, hb⟩ := ih r b₁ b₂ h₁' h₂' ht
      exact ⟨by rw [ha], hb⟩

/-- C8 amended: the key function is injective on pairs whose bearer token
contains no `:` character (real bearer tokens never do), so for such pairs
distinct (token, location) pairs always use distinct cache entries; for
arbitrary strings the key can collide (see the collision counterexample). -/
theorem cacheKey_injective_of_sep_free (t₁ l₁ t₂ l₂ : String)
    (h₁ : ':' ∉ t₁.data) (h₂ : ':' ∉ t₂.data)
    (h : cacheKey t₁ l₁ = cacheKey t₂ l₂) : t₁ = t₂ ∧ l₁ = l₂ := by
  unfold cacheKey at h
  have hd : t₁.data ++ ':' :: l₁.data = t₂.data ++ ':' :: l₂.data := by
    have := congrArg String.data h
    simpa [String.data_append] using this
  obtain ⟨ha, hb⟩ := append_sep_inj t₁.data t₂.data l₁.data l₂.data h₁ h₂ hd
  exact ⟨String.ext ha, String.ext hb⟩

theorem cacheKey_injective_of_sep_free_witness :
    ':' ∉ ("abc" : String).data ∧
    cacheKey "abc" "loc_9" = cacheKey "abc" "loc_9" ∧
    (("abc" : String) = "abc" ∧ ("loc_9" : String) = "loc_9") :=
  ⟨by decide, rfl,
    cacheKey_injective_of_sep_free "abc" "loc_9" "abc" "loc_9"
      (by decide) (by decide) rfl⟩

/-! ### Helper lemmas for the auth dependency (C9) -/

theorem resolve_state_calls (st : TMState) (token : String) (now : Nat)
    (net : HttpOutcome) (jd : String → Option Claims) :
    (get_location_from_token st token now net jd).2 =
      (validate_bearer_token st token now net).2 := by
  unfold get_location_from_token
  rcases hv : validate_bearer_token st token now net with ⟨r, st₁, calls⟩
  cases r with
  | exn e => rfl
  | ret d =>
    cases hd : jd token with
    | none => simp [hd]
    | some claims =>
      cases hc : dictGet claims "locationId" with
      | none => simp [hd, hc]
      | some l => by_cases hl : l = "" <;> simp [hd, hc, hl]

theorem middleware_unfold_some (st : TMState) (token : String) (now : Nat)
    (net : HttpOutcome) (jd : String → Option Claims) :
    httpAuthMiddleware st (some token) now net jd =
      (match validate_bearer_token st token now net with
        | (.exn (.httpException s d), st₁, calls) =>
          (.exn (.httpException s d), st₁, calls)
        | (.exn (.pyError _), st₁, calls) =>
          (.exn (.httpException 401 "Authentication failed"), st₁, calls)
        | (.ret _, st₁, calls) =>
          match get_location_from_token st₁ token now net jd with
          | (.ret loc, st₂, calls₂) => (.ret loc, st₂, calls ++ calls₂)
          | (.exn (.httpException s d), st₂, calls₂) =>
            (.exn (.httpException s d), st₂, calls ++ calls₂)
          | (.exn (.pyError _), st₂, calls₂) =>
            (.exn (.httpException 401 "Authentication failed"), st₂, calls ++ calls₂)) :=
  rfl

theorem middleware_locCache_calls (st : TMState) (token : String) (now : Nat)
    (net : HttpOutcome) (jd : String → Option Claims) :
    (httpAuthMiddleware st (some token) now net jd).2.1.locationTokenCache =
      st.locationTokenCache ∧
    ∀ c ∈ (httpAuthMiddleware st (some token) now net jd).2.2,
      ∃ t, c = NetCall.oauthTest t := by
  rcases hv : validate_bearer_token st token now net with ⟨r, st₁, calls⟩
  have hloc : st₁.locationTokenCache = st.locationTokenCache := by
    have hx := validate_locCache st token now net
    rw [hv] at hx
    exact hx
  have hcalls : calls = [] ∨ calls = [NetCall.oauthTest token] := by
    have hx := validate_calls st token now net
    rw [hv] at hx
    exact hx
  have honly : ∀ c ∈ calls, ∃ t, c = NetCall.oauthTest t := by
    intro c hc
    rcases hcalls with h | h
    · rw [h] at hc; cases hc
    · rw [h, List.mem_singleton] at hc; exact ⟨token, hc⟩
  cases r with
  | exn e =>
    cases e with
    | httpException s d =>
      have hm : httpAuthMiddleware st (some token) now net jd =
          (.exn (.httpException s d), st₁, calls) := by
        rw [middleware_unfold_some, hv]
      rw [hm]
      exact ⟨hloc, honly⟩
    | pyError m =>
      have hm : httpAuthMiddleware st (some token) now net jd =
          (.exn (.httpException 401 "Authentication failed"), st₁, calls) := by
        rw [middleware_unfold_some, hv]
      rw [hm]
      exact ⟨hloc, honly⟩
  | ret d =>
    rcases hr : get_location_from_token st₁ token now net jd with ⟨r₂, st₂, calls₂⟩
    have hx := resolve_state_calls st₁ token now net jd
    rw [hr] at hx
    have hst₂ : st₂.locationTokenCache = st.locationTokenCache := by
      have hy := validate_locCache st₁ token now net
      have hz : st₂.locationTokenCache =
          (validate_bearer_token st₁ token now net).2.1.locationTokenCache := by
        rw [← hx]
      rw [hz, hy, hloc]
    have hcalls₂ : calls₂ = [] ∨ calls₂ = [NetCall.oauthTest token] := by
      have hy := validate_calls st₁ token now net
      have hz : calls₂ = (validate_bearer_token st₁ token now net).2.2 := by
        rw [← hx]
      rw [hz]
      exact hy
    have hmem : ∀ c ∈ calls ++ calls₂, ∃ t, c = NetCall.oauthTest t := by
      intro c hc
      rw [List.mem_append] at hc
      rcases hc with hc | hc
      · exact honly c hc
      · rcases hcalls₂ with h | h
        · rw [h] at hc; cases hc
        · rw [h, List.mem_singleton] at hc; exact ⟨token, hc⟩
    have hm : httpAuthMiddleware st (some token) now net jd =
        (match get_location_from_token st₁ token now net jd with
          | (.ret loc, st₂, calls₂) => (.ret loc, st₂, calls ++ calls₂)
          | (.exn (.httpException s dd), st₂, calls₂) =>
            (.exn (.httpException s dd), st₂, calls ++ calls₂)
          | (.exn (.pyError _), st₂, calls₂) =>
            (.exn (.httpException 401 "Authentication failed"), st₂, calls ++ calls₂)) := by
      rw [middleware_unfold_some, hv]
    rw [hm, hr]
    cases r₂ with
    | exn e =>
      cases e with
      | httpException s dd => exact ⟨hst₂, hmem⟩
      | pyError m => exact ⟨hst₂, hmem⟩
    | ret loc => exact ⟨hst₂, hmem⟩

/-! ### C9 — the auth dependency defers the exchange -/

theorem mcpAuth_unfold_some (st : TMState) (req : PyRequest) (token : String)
    (now : Nat) (net : HttpOutcome) (jd : String → Option Claims) :
    mcpAuth st req (some token) now net jd =
      (match httpAuthMiddleware st (some token) now net jd with
        | (.ret loc, st₁, calls) =>
          (.ret (loc, token), st₁,
            { req with stateBearerToken := some token, stateLocationId := some loc },
            calls)
        | (.exn e, st₁, calls) => (.exn e, st₁, req, calls)) :=
  rfl

/-- C9: when authentication succeeds, the auth dependency returns the inbound
bearer token unchanged as the token component, performs no call to the token
exchange endpoint, and leaves the scoped-token cache untouched; the exchange
is instead delegated to the CRM client's OAuth wrapper, which forwards to the
token manager's exchanger. -/
theorem mcpAuth_defers_exchange (st : TMState) (req : PyRequest) (tok : String)
    (now : Nat) (net : HttpOutcome) (jd : String → Option Claims)
    (p : String × String) (st₁ : TMState) (req₁ : PyRequest)
    (calls : List NetCall)
    (h : mcpAuth st req (some tok) now net jd = (.ret p, st₁, req₁, calls)) :
    p.2 = tok ∧
    st₁.locationTokenCache = st.locationTokenCache ∧
    (∀ b l, NetCall.getToken b l ∉ calls) ∧
    (∀ st₂ t l n₂ net₂, remoteOAuthGetLocationToken st₂ t l n₂ net₂ =
      get_location_token st₂ t l n₂ net₂) := by
  rw [mcpAuth_unfold_some] at h
  rcases hm : httpAuthMiddleware st (some tok) now net jd with ⟨r, st', calls'⟩
  have hprops := middleware_locCache_calls st tok now net jd
  rw [hm] at h hprops
  cases r with
  | exn e => simp at h
  | ret loc =>
    simp only [Prod.mk.injEq, Outcome.ret.injEq] at h
    obtain ⟨hp, hst, _, hcalls⟩ := h
    refine ⟨?_, ?_, ?_, fun _ _ _ _ _ => rfl⟩
    · rw [← hp]
    · rw [← hst]; exact hprops.1
    · intro b l hmem
      rw [← hcalls] at hmem
      obtain ⟨t, ht⟩ := hprops.2 _ hmem
      cases ht

theorem mcpAuth_defers_exchange_witness :
    mcpAuth TMState.init ⟨none, none, none⟩ (some "abc") 0 (.resp 200 [] "ok")
        (fun _ => none) =
      (.ret ("test_location_id", "abc"),
        ⟨[("abc", [("expires_at", JVal.time (0 + 5 * 60))])], []⟩,
        ⟨none, some "abc", some "test_location_id"⟩,
        [.oauthTest "abc"]) ∧
    (("test_location_id", "abc") : String × String).2 = "abc" ∧
    (⟨[("abc", [("expires_at", JVal.time (0 + 5 * 60))])], []⟩ : TMState).locationTokenCache =
      TMState.init.locationTokenCache ∧
    (∀ b l, NetCall.getToken b l ∉ [NetCall.oauthTest "abc"]) ∧
    (∀ st₂ t l n₂ net₂, remoteOAuthGetLocationToken st₂ t l n₂ net₂ =
      get_location_token st₂ t l n₂ net₂) :=
  ⟨rfl,
    mcpAuth_defers_exchange TMState.init ⟨none, none, none⟩ "abc" 0
      (.resp 200 [] "ok") (fun _ => none) ("test_location_id", "abc")
      ⟨[("abc", [("expires_at", JVal.time (0 + 5 * 60))])], []⟩
      ⟨none, some "abc", some "test_location_id"⟩ [.oauthTest "abc"] rfl⟩
